import Mathlib

/-!
Shallow embedding of the three web-server variants of the repository:
`src/functional/web.go` (the minimal variant), `src/unnamed/part_000`
(the globals variant, Part 2 of the post) and the object-oriented variant
given in Part 3 of `src/post.md` (`New` / `app`).

The `net/http` and `log` standard-library pieces the snippets call into are
not part of the repository; where their behaviour decides a property they
are modelled from the spec's description and marked as such in doc comments.
Wall-clock time enters the embedding as an explicit formatted timestamp
string passed to each handling step.
-/

/-- An inbound HTTP request. The dispatcher only ever inspects `path`; the
remaining fields model the parts of a request a handler could read
(method, query string, headers, body). -/
structure Request where
  method : String
  path : String
  query : String
  headers : List (String × String)
  body : String
deriving Repr, DecidableEq

/-- Output stream a logger writes to. -/
inductive Dest where
  | stdout
  | stderr
deriving Repr, DecidableEq

/-- Go's `log.Ldate` flag bit. -/
def Ldate : Nat := 1

/-- Go's `log.Ltime` flag bit. -/
def Ltime : Nat := 2

/-- Go's `log.LstdFlags`, the bitwise or of `Ldate` and `Ltime`. -/
def LstdFlags : Nat := Nat.lor Ldate Ltime

/-- A `log.Logger` configuration as created by `log.New(out, tag, flags)`;
`tag` embeds the logger's fixed line tag (the second argument of
`log.New`, e.g. `"web "`). -/
structure Logger where
  out : Dest
  tag : String
  flags : Nat
deriving Repr, DecidableEq

/-- The text line `(*Logger).Println(msg)` emits, given the formatted
wall-clock timestamp `ts` of the call: the fixed tag, then the timestamp
when a date/time flag is set, then the message. -/
def Logger.formatLine (l : Logger) (ts msg : String) : String :=
  l.tag ++ (if l.flags.land (Nat.lor Ldate Ltime) ≠ 0 then ts ++ " " else "") ++ msg

/-- Process-wide observable state: the lines written to standard output and
to standard error so far, and the `log.Logger` instances allocated so far.
A logger (logging sink instance) is referenced by its index in allocation
order. -/
structure World where
  stdoutLines : List String
  stderrLines : List String
  loggers : List Logger
deriving Repr, DecidableEq

/-- The process state at startup: nothing written, no logger allocated. -/
def World.init : World := { stdoutLines := [], stderrLines := [], loggers := [] }

/-- `log.New(out, tag, flags)`: allocates a fresh logger instance and
returns the reference to it. -/
def logNew (w : World) (out : Dest) (tag : String) (flags : Nat) : World × Nat :=
  ({ w with loggers := w.loggers ++ [⟨out, tag, flags⟩] }, w.loggers.length)

/-- `logger.Println(ts, msg)` on the logger referenced by `ref`: appends
one formatted line to that logger's destination stream. -/
def loggerPrintln (w : World) (ref : Nat) (ts msg : String) : World :=
  match w.loggers.get? ref with
  | some l =>
      match l.out with
      | .stdout => { w with stdoutLines := w.stdoutLines ++ [l.formatLine ts msg] }
      | .stderr => { w with stderrLines := w.stderrLines ++ [l.formatLine ts msg] }
  | none => w

/-- The state of an `http.ResponseWriter` during one request: the
explicitly written status code (if any) and the body chunks written. -/
structure RW where
  status : Option Nat
  body : List String
deriving Repr, DecidableEq

/-- The writer handed to a handler before it runs: nothing written yet. -/
def RW.fresh : RW := { status := none, body := [] }

/-- An `http.HandlerFunc`: consumes the request, the formatted wall-clock
timestamp of the moment of handling, the process state and the response
writer, and returns the updated process state and writer. -/
abbrev Handler := Request → String → World → RW → World × RW

/-- An `http.ServeMux`: its registered (pattern, handler) entries, most
recent registration first. -/
structure ServeMux where
  entries : List (String × Handler)

/-- `http.NewServeMux()`: an empty mux. -/
def newServeMux : ServeMux := ⟨[]⟩

/-- Modelled from the spec: route registration (`(*ServeMux).HandleFunc`)
is standard-library code not contained in this repository; per the spec no
duplicate-path validation is performed and a later registration silently
shadows an earlier one, so the new entry goes in front of the list. -/
def ServeMux.handleFunc (m : ServeMux) (pat : String) (h : Handler) : ServeMux :=
  ⟨(pat, h) :: m.entries⟩

/-- `ServeMux` pattern matching: a pattern ending in a slash matches every
path it is a prefix of; any other pattern matches the path exactly.  On the
only pattern the route-table claims concern (`/foo`) this coincides with
the spec's exact-match route table. -/
def patternMatches (pat path : String) : Bool :=
  if pat.data.getLast? == some '/' then pat.data.isPrefixOf path.data else pat == path

/-- Route lookup: among the entries whose pattern matches the path, the one
with the longest pattern wins; among equal-length patterns the most recent
registration wins. -/
def ServeMux.findHandler (m : ServeMux) (path : String) : Option (String × Handler) :=
  (m.entries.filter (fun e => patternMatches e.1 path)).foldl
    (fun acc e =>
      match acc with
      | none => some e
      | some a => if e.1.length > a.1.length then some e else acc)
    none

/-- Modelled from the spec: mux dispatch (`(*ServeMux).ServeHTTP`) is
standard-library code not contained in this repository; the matching
handler is invoked synchronously on the request, and when no pattern
matches, the framework's generic "not found" response is produced and no
handler runs. -/
def ServeMux.serveHTTP (m : ServeMux) (req : Request) (ts : String) (w : World) : World × RW :=
  match m.findHandler req.path with
  | some e => e.2 req ts w RW.fresh
  | none => (w, { status := some 404, body := ["404 page not found"] })

/-- A finished HTTP response as seen by the client. -/
structure Response where
  status : Nat
  body : String
deriving Repr, DecidableEq

/-- Modelled from the spec: a handler returning without writing a status or
body yields the default success status (200) with an empty body. -/
def finalize (rw : RW) : Response :=
  { status := rw.status.getD 200, body := String.join rw.body }

/-- The environment a process is started in (command-line arguments and
environment variables).  None of the repository's variants read any of it. -/
structure Env where
  args : List String
  vars : List (String × String)

/-! ### The globals variant, `src/unnamed/part_000` (Part 2 of the post) -/

/-- The `foo` handler of `src/unnamed/part_000`: logs `request to foo` on
the package-level logger (referenced by `lref`) and writes nothing to the
response writer. -/
def foo (lref : Nat) : Handler :=
  fun _r ts w rw => (loggerPrintln w lref ts "request to foo", rw)

/-- `routes()` of `src/unnamed/part_000`: a fresh mux with `/foo` mapped to
`foo`. -/
def routes (lref : Nat) : ServeMux :=
  newServeMux.handleFunc "/foo" (foo lref)

/-- The startup part of `main` in `src/unnamed/part_000`, before serving
begins: allocate the package-level logger
`log.New(os.Stdout, "web ", log.LstdFlags)` and build the route table of
the `http.Server`.  The `Env` argument is unused because the source reads
no command-line arguments, environment variables or configuration. -/
def part2Startup (_ε : Env) : World × ServeMux × Nat :=
  let p := logNew World.init .stdout "web " LstdFlags
  (p.1, routes p.2, p.2)

/-- The logger configuration allocated at startup by both the globals and
the object-oriented variant. -/
def webLogger : Logger := ⟨.stdout, "web ", LstdFlags⟩

/-- The process state right after the startup of `src/unnamed/part_000`. -/
def part2World : World := (part2Startup ⟨[], []⟩).1

/-- The route table of `src/unnamed/part_000` (the package logger is the
first and only allocated logger, reference 0). -/
def part2Mux : ServeMux := (part2Startup ⟨[], []⟩).2.1

/-! ### The object-oriented variant, Part 3 of `src/post.md` -/

/-- The method `(*app).foo` of Part 3 in `src/post.md`: logs
`request to foo` on the app's logger and writes nothing to the response. -/
def appFoo (lref : Nat) : Handler :=
  fun _r ts w rw => (loggerPrintln w lref ts "request to foo", rw)

/-- The unexported `app` struct of Part 3 in `src/post.md`: the mux and the
logger it owns. -/
structure App where
  mux : ServeMux
  logRef : Nat

/-- `New()` of Part 3 in `src/post.md`: creates a mux, allocates the logger
`log.New(os.Stdout, "web ", log.LstdFlags)`, wraps both in an `app`, and
maps `/foo` to the app's `foo` method.  The `Env` argument is unused
because the source reads no arguments, variables or configuration. -/
def New (_ε : Env) : World × App :=
  let p := logNew World.init .stdout "web " LstdFlags
  (p.1, ⟨newServeMux.handleFunc "/foo" (appFoo p.2), p.2⟩)

/-- `(*app).ServeHTTP` of Part 3 in `src/post.md`: delegates every request
to the app's mux. -/
def App.serveHTTP (a : App) (req : Request) (ts : String) (w : World) : World × RW :=
  a.mux.serveHTTP req ts w

/-- The process state right after `New()` of Part 3. -/
def part3World : World := (New ⟨[], []⟩).1

/-- The app built by `New()` of Part 3. -/
def part3App : App := (New ⟨[], []⟩).2

/-! ### The serving loop -/

/-- The state of a running part-2 style server: the mux its `Handler`
field points to, and the process state. -/
structure ServerState where
  world : World
  mux : ServeMux

/-- One accepted request: dispatch it through the mux and finalize the
response once the handler returns. -/
def serveStep (s : ServerState) (req : Request) (ts : String) : ServerState × Response :=
  let p := s.mux.serveHTTP req ts s.world
  ({ world := p.1, mux := s.mux }, finalize p.2)

/-- A whole sequence of accepted requests, each with the timestamp at which
it is handled. -/
def serveRun (s : ServerState) : List (Request × String) → ServerState
  | [] => s
  | (r, ts) :: rest => serveRun (serveStep s r ts).1 rest

/-- The part-2 server right after startup, ready to serve. -/
def part2Init : ServerState := { world := part2World, mux := part2Mux }

/-- A whole sequence of requests served by the part-3 app (the app itself
is immutable; only the process state threads through). -/
def appServeRun (a : App) (w : World) : List (Request × String) → World
  | [] => w
  | (r, ts) :: rest => appServeRun a (a.serveHTTP r ts w).1 rest

/-! ### Process outcomes -/

/-- The outcome of running one of the `main`s: either the process keeps
serving forever, or it exits with the given status code. -/
inductive ProcessOutcome where
  | running
  | exited (code : Nat)
deriving Repr, DecidableEq

/-- `main` of `src/unnamed/part_000`.  Modelled from the spec:
`server.ListenAndServe()` blocks and serves forever when the socket binds,
and returns an error immediately (no retry) when the bind fails.  The
source discards that error, so on a bind failure `main` simply returns and
the process exits with status 0. -/
def part2Outcome (bindOk : Bool) : ProcessOutcome :=
  if bindOk then .running else .exited 0

/-- `main` of `src/functional/web.go`.  Modelled from the spec:
`http.ListenAndServe` blocks forever on success and returns an error on a
bind failure; `log.Fatal` then reports the error and exits the process
with status 1. -/
def functionalOutcome (bindOk : Bool) : ProcessOutcome :=
  if bindOk then .running else .exited 1

/-- `main` of Part 3 in `src/post.md`: like part 2, the error returned by
`http.ListenAndServe` is discarded, so a bind failure exits with status 0. -/
def part3Outcome (bindOk : Bool) : ProcessOutcome :=
  if bindOk then .running else .exited 0

/-! ### Sample requests and helper lemmas -/

/-- A plain GET request for the registered path. -/
def reqFoo : Request := ⟨"GET", "/foo", "", [], ""⟩

/-- A POST request for the registered path carrying headers and a body. -/
def reqFooPost : Request := ⟨"POST", "/foo", "a=1", [("X-Key", "v")], "payload"⟩

/-- A request for an unregistered path. -/
def reqBar : Request := ⟨"GET", "/bar", "", [], ""⟩

/-- A plain GET request for `/`, the path registered by the minimal
variant `src/functional/web.go`. -/
def reqRoot : Request := ⟨"GET", "/", "", [], ""⟩

/-- The `log` package's default logger, the one plain `log.Println` writes
through: it is the standard library's process-wide logger, which writes to
standard error with an empty tag and `LstdFlags`.  It exists before `main`
runs; no code of the repository creates it. -/
def stdLogger : Logger := ⟨.stderr, "", LstdFlags⟩

/-- The inline handler of `src/functional/web.go`: logs `Request to /`
through the default logger (reference 0 in the functional variant's
startup state) and writes nothing to the response writer. -/
def rootHandler : Handler :=
  fun _r ts w rw => (loggerPrintln w 0 ts "Request to /", rw)

/-- The process state at the start of `src/functional/web.go`'s `main`:
nothing written yet, and the standard library's default logger already
allocated. -/
def functionalWorld : World :=
  { stdoutLines := [], stderrLines := [], loggers := [stdLogger] }

/-- The route table of `src/functional/web.go`:
`http.HandleFunc("/", ...)` registers the inline handler for `/` on the
package-level default mux. -/
def functionalMux : ServeMux := newServeMux.handleFunc "/" rootHandler

theorem isPrefixOf_self {α : Type} [BEq α] [LawfulBEq α] (l : List α) :
    l.isPrefixOf l = true := by
  induction l with
  | nil => rfl
  | cons a as ih => simp [List.isPrefixOf, ih]

theorem patternMatches_self (p : String) : patternMatches p p = true := by
  unfold patternMatches
  split
  · exact isPrefixOf_self p.data
  · simp

theorem part2Mux_eq : part2Mux = newServeMux.handleFunc "/foo" (foo 0) := rfl

theorem part3Mux_eq : part3App.mux = newServeMux.handleFunc "/foo" (appFoo 0) := rfl

theorem findHandler_single (h : Handler) (p : String) :
    (newServeMux.handleFunc "/foo" h).findHandler p
      = if p = "/foo" then some ("/foo", h) else none := by
  by_cases hp : p = "/foo"
  · subst hp
    rw [if_pos rfl]
    rfl
  · rw [if_neg hp]
    have h2 : patternMatches "/foo" p = false := by
      unfold patternMatches
      rw [if_neg (by decide)]
      exact beq_eq_false_iff_ne.mpr (fun e => hp e.symm)
    unfold ServeMux.findHandler ServeMux.handleFunc newServeMux
    simp [List.filter, h2]

theorem loggerPrintln_loggers (w : World) (ref : Nat) (ts msg : String) :
    (loggerPrintln w ref ts msg).loggers = w.loggers := by
  unfold loggerPrintln
  split
  · split <;> rfl
  · rfl

theorem loggerPrintln_webLogger (w : World) (ts msg : String)
    (hw : w.loggers = [webLogger]) :
    loggerPrintln w 0 ts msg
      = { w with stdoutLines := w.stdoutLines ++ ["web " ++ (ts ++ " ") ++ msg] } := by
  unfold loggerPrintln
  rw [hw]
  rfl

theorem serveHTTP_part2_foo (req : Request) (ts : String) (w : World)
    (hw : w.loggers = [webLogger]) (hp : req.path = "/foo") :
    part2Mux.serveHTTP req ts w
      = ({ w with stdoutLines :=
             w.stdoutLines ++ ["web " ++ (ts ++ " ") ++ "request to foo"] },
         RW.fresh) := by
  have hm : part2Mux.findHandler req.path = some ("/foo", foo 0) := by
    rw [part2Mux_eq, findHandler_single, if_pos hp]
  unfold ServeMux.serveHTTP
  rw [hm]
  show (loggerPrintln w 0 ts "request to foo", RW.fresh) = _
  rw [loggerPrintln_webLogger w ts "request to foo" hw]

theorem serveHTTP_part3_foo (req : Request) (ts : String) (w : World)
    (hw : w.loggers = [webLogger]) (hp : req.path = "/foo") :
    part3App.serveHTTP req ts w
      = ({ w with stdoutLines :=
             w.stdoutLines ++ ["web " ++ (ts ++ " ") ++ "request to foo"] },
         RW.fresh) := by
  have hm : part3App.mux.findHandler req.path = some ("/foo", appFoo 0) := by
    rw [part3Mux_eq, findHandler_single, if_pos hp]
  unfold App.serveHTTP ServeMux.serveHTTP
  rw [hm]
  show (loggerPrintln w 0 ts "request to foo", RW.fresh) = _
  rw [loggerPrintln_webLogger w ts "request to foo" hw]

theorem serveHTTP_part2_loggers (req : Request) (ts : String) (w : World) :
    (part2Mux.serveHTTP req ts w).1.loggers = w.loggers := by
  unfold ServeMux.serveHTTP
  rw [part2Mux_eq, findHandler_single]
  by_cases hp : req.path = "/foo"
  · rw [if_pos hp]
    show ((foo 0) req ts w RW.fresh).1.loggers = w.loggers
    exact loggerPrintln_loggers w 0 ts "request to foo"
  · rw [if_neg hp]

theorem serveHTTP_part3_loggers (req : Request) (ts : String) (w : World) :
    (part3App.serveHTTP req ts w).1.loggers = w.loggers := by
  unfold App.serveHTTP ServeMux.serveHTTP
  rw [part3Mux_eq, findHandler_single]
  by_cases hp : req.path = "/foo"
  · rw [if_pos hp]
    show ((appFoo 0) req ts w RW.fresh).1.loggers = w.loggers
    exact loggerPrintln_loggers w 0 ts "request to foo"
  · rw [if_neg hp]

theorem serveRun_mux (rs : List (Request × String)) :
    ∀ s : ServerState, (serveRun s rs).mux = s.mux := by
  induction rs with
  | nil => intro s; rfl
  | cons a rest ih =>
      intro s
      obtain ⟨r, ts⟩ := a
      show (serveRun (serveStep s r ts).1 rest).mux = s.mux
      rw [ih]
      rfl

theorem serveRun_part2_loggers (rs : List (Request × String)) :
    ∀ s : ServerState, s.mux = part2Mux → s.world.loggers = [webLogger] →
      (serveRun s rs).world.loggers = [webLogger] := by
  induction rs with
  | nil => intro s _ h2; exact h2
  | cons a rest ih =>
      intro s h1 h2
      obtain ⟨r, ts⟩ := a
      show (serveRun (serveStep s r ts).1 rest).world.loggers = [webLogger]
      apply ih
      · exact h1
      · show (s.mux.serveHTTP r ts s.world).1.loggers = [webLogger]
        rw [h1, serveHTTP_part2_loggers, h2]

theorem appServeRun_part3_loggers (rs : List (Request × String)) :
    ∀ w : World, w.loggers = [webLogger] →
      (appServeRun part3App w rs).loggers = [webLogger] := by
  induction rs with
  | nil => intro w h; exact h
  | cons a rest ih =>
      intro w h
      obtain ⟨r, ts⟩ := a
      show (appServeRun part3App (part3App.serveHTTP r ts w).1 rest).loggers = [webLogger]
      apply ih
      rw [serveHTTP_part3_loggers, h]

/-! ### The claims -/

/-- C1 counterexample: in the minimal variant `src/functional/web.go` the
registered path is `/`; dispatching a request to it does invoke the
handler, yet standard output receives no line at all — the single line
produced goes to standard error through the default logger, and its text is
`Request to /`, which does not contain the literal `request to foo`. -/
theorem c1_counterexample :
    (functionalMux.findHandler reqRoot.path).isSome = true ∧
    (functionalMux.serveHTTP reqRoot "T" functionalWorld).1.stdoutLines = [] ∧
    (functionalMux.serveHTTP reqRoot "T" functionalWorld).1.stderrLines
      = ["" ++ ("T" ++ " ") ++ "Request to /"] ∧
    ¬ List.IsInfix ("request to foo").data
        ((stdLogger.formatLine "T" "Request to /").data) :=
  ⟨rfl, rfl, rfl, by decide⟩

/-- C1 amended: in the globals variant (`src/unnamed/part_000`) and the
object-oriented variant, every request to the registered path `/foo`
appends exactly one line to standard output: the literal `request to foo`
prefixed with the fixed tag `web ` and the timestamp.  In the minimal
variant (`src/functional/web.go`) a request to the registered path `/`
appends exactly one line `Request to /`, prefixed with the timestamp only,
to standard error, and nothing to standard output. -/
theorem c1_registered_path_logs_one_line (w : World) (req : Request) (ts : String)
    (hw : w.loggers = [webLogger]) (hp : req.path = "/foo") :
    (part2Mux.serveHTTP req ts w).1.stdoutLines
      = w.stdoutLines ++ ["web " ++ (ts ++ " ") ++ "request to foo"] ∧
    (part3App.serveHTTP req ts w).1.stdoutLines
      = w.stdoutLines ++ ["web " ++ (ts ++ " ") ++ "request to foo"] ∧
    (functionalMux.serveHTTP reqRoot ts functionalWorld).1.stdoutLines = [] ∧
    (functionalMux.serveHTTP reqRoot ts functionalWorld).1.stderrLines
      = ["" ++ (ts ++ " ") ++ "Request to /"] := by
  refine ⟨?_, ?_, rfl, rfl⟩
  · rw [serveHTTP_part2_foo req ts w hw hp]
  · rw [serveHTTP_part3_foo req ts w hw hp]

/-- Witness for C1 at a concrete GET request to `/foo` (and the fixed
`reqRoot` for the minimal variant). -/
theorem c1_registered_path_logs_one_line_witness :
    (part2Mux.serveHTTP reqFoo "2009/01/23 01:23:23" part2World).1.stdoutLines
      = part2World.stdoutLines
        ++ ["web " ++ ("2009/01/23 01:23:23" ++ " ") ++ "request to foo"] ∧
    (part3App.serveHTTP reqFoo "2009/01/23 01:23:23" part2World).1.stdoutLines
      = part2World.stdoutLines
        ++ ["web " ++ ("2009/01/23 01:23:23" ++ " ") ++ "request to foo"] ∧
    (functionalMux.serveHTTP reqRoot "2009/01/23 01:23:23" functionalWorld).1.stdoutLines = [] ∧
    (functionalMux.serveHTTP reqRoot "2009/01/23 01:23:23" functionalWorld).1.stderrLines
      = ["" ++ ("2009/01/23 01:23:23" ++ " ") ++ "Request to /"] :=
  c1_registered_path_logs_one_line part2World reqFoo "2009/01/23 01:23:23" rfl rfl

/-- C2 counterexample: in `src/unnamed/part_000` the error returned by
`server.ListenAndServe()` is discarded, so when the bind fails the process
exits with status 0 — there is no non-zero fatal exit status, contradicting
the claim that a bind failure exits with a fatal (non-zero) status. -/
theorem c2_counterexample :
    part2Outcome false = ProcessOutcome.exited 0 ∧
    ¬ ∃ c, c ≠ 0 ∧ part2Outcome false = ProcessOutcome.exited c := by
  refine ⟨rfl, ?_⟩
  rintro ⟨c, hc, h⟩
  have h' : ProcessOutcome.exited 0 = ProcessOutcome.exited c := h
  injection h' with h0
  exact hc h0.symm

/-- C2 amended: none of the variants exits during normal operation, and a
bind failure terminates each of them immediately with no retry; the
functional variant (`src/functional/web.go`) exits with the non-zero fatal
status 1 via `log.Fatal`, while the globals variant
(`src/unnamed/part_000`) and the object-oriented variant discard the error
and exit with status 0. -/
theorem c2_exit_semantics (b : Bool) :
    (part2Outcome b = ProcessOutcome.running ↔ b = true) ∧
    (functionalOutcome b = ProcessOutcome.running ↔ b = true) ∧
    (part3Outcome b = ProcessOutcome.running ↔ b = true) ∧
    part2Outcome false = ProcessOutcome.exited 0 ∧
    part3Outcome false = ProcessOutcome.exited 0 ∧
    functionalOutcome false = ProcessOutcome.exited 1 := by
  cases b <;> simp [part2Outcome, functionalOutcome, part3Outcome]

/-- C3: for every request whose path is not in the route table of
`src/unnamed/part_000`, no registered handler is found, the process state
is untouched (in particular no log line is produced), and the framework's
generic "not found" response is returned. -/
theorem c3_unregistered_path_not_found (w : World) (req : Request) (ts : String)
    (hp : req.path ≠ "/foo") :
    part2Mux.findHandler req.path = none ∧
    (part2Mux.serveHTTP req ts w).1 = w ∧
    finalize (part2Mux.serveHTTP req ts w).2 = ⟨404, "404 page not found"⟩ := by
  have hm : part2Mux.findHandler req.path = none := by
    rw [part2Mux_eq, findHandler_single, if_neg hp]
  refine ⟨hm, ?_, ?_⟩
  · unfold ServeMux.serveHTTP
    rw [hm]
  · unfold ServeMux.serveHTTP
    rw [hm]
    rfl

/-- Witness for C3 at a concrete GET request to the unregistered `/bar`. -/
theorem c3_unregistered_path_not_found_witness :
    part2Mux.findHandler reqBar.path = none ∧
    (part2Mux.serveHTTP reqBar "T" part2World).1 = part2World ∧
    finalize (part2Mux.serveHTTP reqBar "T" part2World).2
      = ⟨404, "404 page not found"⟩ :=
  c3_unregistered_path_not_found part2World reqBar "T" (by decide)

/-- C4: registering a second handler for an already registered path never
fails and performs no duplicate-path validation; the later registration
shadows the earlier one, so a subsequent dispatch on that path invokes the
later handler. -/
theorem c4_later_registration_shadows (p : String) (h1 h2 : Handler)
    (req : Request) (ts : String) (w : World) (hp : req.path = p) :
    ((newServeMux.handleFunc p h1).handleFunc p h2).findHandler req.path
      = some (p, h2) ∧
    ((newServeMux.handleFunc p h1).handleFunc p h2).serveHTTP req ts w
      = h2 req ts w RW.fresh := by
  subst hp
  have hm : ((newServeMux.handleFunc req.path h1).handleFunc req.path h2).findHandler req.path
      = some (req.path, h2) := by
    unfold ServeMux.findHandler ServeMux.handleFunc newServeMux
    simp [List.filter, patternMatches_self]
  refine ⟨hm, ?_⟩
  unfold ServeMux.serveHTTP
  rw [hm]

/-- Witness for C4: registering two distinct handlers for `/foo` and
dispatching a concrete request. -/
theorem c4_later_registration_shadows_witness :
    ((newServeMux.handleFunc "/foo" (appFoo 1)).handleFunc "/foo" (foo 0)).findHandler reqFoo.path
      = some ("/foo", foo 0) ∧
    ((newServeMux.handleFunc "/foo" (appFoo 1)).handleFunc "/foo" (foo 0)).serveHTTP reqFoo "T" part2World
      = (foo 0) reqFoo "T" part2World RW.fresh :=
  c4_later_registration_shadows "/foo" (appFoo 1) (foo 0) reqFoo "T" part2World rfl

/-- C5: in every state reachable by serving any sequence of requests,
exactly the one logger allocated at startup exists (in both the globals and
the object-oriented variant), and the handlers of both variants write their
log line through that same sink. -/
theorem c5_single_logging_sink (rs : List (Request × String)) (req : Request)
    (ts : String) (w : World) (rw : RW) (hw : w.loggers = [webLogger]) :
    part2World.loggers = [webLogger] ∧
    part3World.loggers = [webLogger] ∧
    (serveRun part2Init rs).world.loggers = [webLogger] ∧
    (appServeRun part3App part3World rs).loggers = [webLogger] ∧
    ((foo 0) req ts w rw).1.stdoutLines
      = w.stdoutLines ++ [webLogger.formatLine ts "request to foo"] ∧
    ((appFoo 0) req ts w rw).1.stdoutLines
      = w.stdoutLines ++ [webLogger.formatLine ts "request to foo"] := by
  refine ⟨rfl, rfl, serveRun_part2_loggers rs part2Init rfl rfl,
    appServeRun_part3_loggers rs part3World rfl, ?_, ?_⟩
  · show (loggerPrintln w 0 ts "request to foo").stdoutLines = _
    rw [loggerPrintln_webLogger w ts "request to foo" hw]
    rfl
  · show (loggerPrintln w 0 ts "request to foo").stdoutLines = _
    rw [loggerPrintln_webLogger w ts "request to foo" hw]
    rfl

/-- Witness for C5 after serving one concrete request. -/
theorem c5_single_logging_sink_witness :
    part2World.loggers = [webLogger] ∧
    part3World.loggers = [webLogger] ∧
    (serveRun part2Init [(reqFoo, "T")]).world.loggers = [webLogger] ∧
    (appServeRun part3App part3World [(reqFoo, "T")]).loggers = [webLogger] ∧
    ((foo 0) reqFoo "T" part2World RW.fresh).1.stdoutLines
      = part2World.stdoutLines ++ [webLogger.formatLine "T" "request to foo"] ∧
    ((appFoo 0) reqFoo "T" part2World RW.fresh).1.stdoutLines
      = part2World.stdoutLines ++ [webLogger.formatLine "T" "request to foo"] :=
  c5_single_logging_sink [(reqFoo, "T")] reqFoo "T" part2World RW.fresh rfl

/-- C6: the route table is created once at startup and no sequence of
dispatched requests adds, removes or replaces any path-to-handler mapping,
in either variant. -/
theorem c6_route_table_immutable (rs : List (Request × String)) :
    (serveRun part2Init rs).mux = part2Mux ∧
    (serveRun part2Init rs).mux.entries = [("/foo", foo 0)] ∧
    part3App.mux.entries = [("/foo", appFoo 0)] := by
  refine ⟨(serveRun_mux rs part2Init).trans rfl, ?_, rfl⟩
  rw [serveRun_mux rs part2Init]
  rfl

/-- C7: for every request to the registered path, the handler returns
without writing a response body or status, the finalized response is the
default success status with an empty body, and the only state change is the
appended log line (the allocated loggers are untouched). -/
theorem c7_empty_response_default_success (w : World) (req : Request) (ts : String)
    (hw : w.loggers = [webLogger]) (hp : req.path = "/foo") :
    (part2Mux.serveHTTP req ts w).2 = RW.fresh ∧
    finalize (part2Mux.serveHTTP req ts w).2 = ⟨200, ""⟩ ∧
    (part2Mux.serveHTTP req ts w).1.loggers = w.loggers ∧
    (part2Mux.serveHTTP req ts w).1.stdoutLines
      = w.stdoutLines ++ ["web " ++ (ts ++ " ") ++ "request to foo"] := by
  rw [serveHTTP_part2_foo req ts w hw hp]
  exact ⟨rfl, rfl, rfl, rfl⟩

/-- Witness for C7 at a concrete GET request to `/foo`. -/
theorem c7_empty_response_default_success_witness :
    (part2Mux.serveHTTP reqFoo "T" part2World).2 = RW.fresh ∧
    finalize (part2Mux.serveHTTP reqFoo "T" part2World).2 = ⟨200, ""⟩ ∧
    (part2Mux.serveHTTP reqFoo "T" part2World).1.loggers = part2World.loggers ∧
    (part2Mux.serveHTTP reqFoo "T" part2World).1.stdoutLines
      = part2World.stdoutLines ++ ["web " ++ ("T" ++ " ") ++ "request to foo"] :=
  c7_empty_response_default_success part2World reqFoo "T" rfl rfl

/-- C8: startup construction is deterministic across process restarts: the
startups of the globals variant (`routes`) and of the object-oriented
variant (`New`) yield identical route tables and identical logging
configuration whatever the environment each run is started in. -/
theorem c8_startup_deterministic (e1 e2 : Env) :
    part2Startup e1 = part2Startup e2 ∧
    New e1 = New e2 ∧
    (part2Startup e1).1.loggers = [webLogger] ∧
    (New e1).1.loggers = [webLogger] ∧
    (part2Startup e1).2.1.entries = [("/foo", foo 0)] ∧
    (New e1).2.mux.entries = [("/foo", appFoo 0)] :=
  ⟨rfl, rfl, rfl, rfl, rfl, rfl⟩

/-- C9: the globals variant and the object-oriented variant are observably
equivalent: starting from their (identical) startup states, each finds a
handler exactly when the request path is `/foo`, and dispatching any
request yields the same process state and the same response writer state in
both. -/
theorem c9_variants_observably_equivalent (req : Request) (ts : String) :
    (part2Mux.findHandler req.path).isSome = (req.path == "/foo") ∧
    (part3App.mux.findHandler req.path).isSome = (req.path == "/foo") ∧
    part2World = part3World ∧
    part2Mux.serveHTTP req ts part2World = part3App.serveHTTP req ts part3World := by
  have h2 : part2Mux.findHandler req.path
      = if req.path = "/foo" then some ("/foo", foo 0) else none := by
    rw [part2Mux_eq, findHandler_single]
  have h3 : part3App.mux.findHandler req.path
      = if req.path = "/foo" then some ("/foo", appFoo 0) else none := by
    rw [part3Mux_eq, findHandler_single]
  by_cases hp : req.path = "/foo"
  · rw [if_pos hp] at h2 h3
    refine ⟨?_, ?_, rfl, ?_⟩
    · rw [h2, hp]
      rfl
    · rw [h3, hp]
      rfl
    · unfold App.serveHTTP ServeMux.serveHTTP
      rw [h2, h3]
      rfl
  · rw [if_neg hp] at h2 h3
    refine ⟨?_, ?_, rfl, ?_⟩
    · rw [h2]
      exact (beq_eq_false_iff_ne.mpr hp).symm
    · rw [h3]
      exact (beq_eq_false_iff_ne.mpr hp).symm
    · unfold App.serveHTTP ServeMux.serveHTTP
      rw [h2, h3]
      rfl

/-- C10: the handler for the registered path ignores its request argument
entirely: for any two requests to `/foo`, whatever their method, query,
headers or body, the handlers of both variants produce identical output,
and so does a full dispatch. -/
theorem c10_handler_ignores_request (r1 r2 : Request) (ts : String) (w : World)
    (rw : RW) (h1 : r1.path = "/foo") (h2 : r2.path = "/foo") :
    (foo 0) r1 ts w rw = (foo 0) r2 ts w rw ∧
    (appFoo 0) r1 ts w rw = (appFoo 0) r2 ts w rw ∧
    part2Mux.serveHTTP r1 ts w = part2Mux.serveHTTP r2 ts w := by
  refine ⟨rfl, rfl, ?_⟩
  have e1 : part2Mux.findHandler r1.path = some ("/foo", foo 0) := by
    rw [part2Mux_eq, findHandler_single, if_pos h1]
  have e2 : part2Mux.findHandler r2.path = some ("/foo", foo 0) := by
    rw [part2Mux_eq, findHandler_single, if_pos h2]
  unfold ServeMux.serveHTTP
  rw [e1, e2]
  rfl

/-- Witness for C10: a bare GET and a POST with query, headers and body,
both to `/foo`, produce identical output. -/
theorem c10_handler_ignores_request_witness :
    (foo 0) reqFoo "T" part2World RW.fresh = (foo 0) reqFooPost "T" part2World RW.fresh ∧
    (appFoo 0) reqFoo "T" part2World RW.fresh = (appFoo 0) reqFooPost "T" part2World RW.fresh ∧
    part2Mux.serveHTTP reqFoo "T" part2World = part2Mux.serveHTTP reqFooPost "T" part2World :=
  c10_handler_ignores_request reqFoo reqFooPost "T" part2World RW.fresh rfl rfl
